import Mathlib

/-!
Verification of the blog-creation workflow engine of `tech-blog-ai`
(`src/app/agents/blog_agent.py` and the parts of
`src/app/services/content_service.py` it calls).

The Python code is shallowly embedded: dict payloads produced by the
external generation capabilities become association lists over a small
JSON-like value type, each LangGraph node function becomes a Lean
function from the oracle outcome of its external call and the current
state to a partial update, and the LangGraph scheduler (linear edges
research -> outline -> draft -> review plus the conditional edge after
review) becomes an explicit small-step machine over configurations.
External LLM / research calls are nondeterministic, so a run is
parameterised by an `Oracle` fixing the outcome of every call
(`Except.error e` models a raised exception with message `e`).
-/

namespace TechBlogAI

/-- JSON-like values, modelling the Python dict/list/str/int/bool payloads
returned by the generation capabilities and stored in workflow state. -/
inductive Val where
  | vNull : Val
  | vBool : Bool → Val
  | vNat : Nat → Val
  | vStr : String → Val
  | vList : List Val → Val
  | vDict : List (String × Val) → Val

/-- A Python dict with string keys, in insertion order. -/
abbrev Dict := List (String × Val)

/-- Python `d.get(k)` / `d[k]` lookup: first binding of `k`. -/
def dget (d : Dict) (k : String) : Option Val :=
  match d with
  | [] => none
  | (k₁, v) :: rest => if k₁ = k then some v else dget rest k

/-- Python `d.get(k, dflt)`. -/
def dgetD (d : Dict) (k : String) (dflt : Val) : Val :=
  (dget d k).getD dflt

/-- Python `d[k] = v`: update in place if the key exists, else append. -/
def dset (d : Dict) (k : String) (v : Val) : Dict :=
  match d with
  | [] => [(k, v)]
  | (k₁, v₁) :: rest => if k₁ = k then (k₁, v) :: rest else (k₁, v₁) :: dset rest k v

/-- Python `d.setdefault(k, v)`. -/
def dsetdefault (d : Dict) (k : String) (v : Val) : Dict :=
  match dget d k with
  | some _ => d
  | none => dset d k v

/-- Python `len` on the sequence-shaped values that reach the `len` call
sites of the workflow (lists, dicts and strings). -/
def pyLen : Val → Nat
  | .vStr s => s.length
  | .vList l => l.length
  | .vDict d => d.length
  | _ => 0

/-- Python `str.split()` with no separator: split on runs of whitespace,
dropping empty pieces. -/
def pySplitWhitespace (s : String) : List String :=
  (s.split fun c => c.isWhitespace).filter (fun t => t ≠ "")

/-- Python `len(content.split())`, the word counter of
`ContentService.generate_draft`. -/
def pyWordCount (s : String) : Nat :=
  (pySplitWhitespace s).length

/-- Interpolation of a scalar value into an f-string, for the message log.
(Sequence values never reach the interpolation sites of the workflow.) -/
def pyStr : Val → String
  | .vNull => "None"
  | .vBool true => "True"
  | .vBool false => "False"
  | .vNat n => toString n
  | .vStr s => s
  | .vList _ => "[...]"
  | .vDict _ => "\x7b...\x7d"

/-- Python truthiness of an optional string, used by
`should_revise` / `check_error` on `state.get("error")`. -/
def pyTruthyStr : Option String → Bool
  | none => false
  | some s => if s = "" then false else true

/-- The `BlogState` TypedDict (blog_agent.py lines 16-51): the TypedDict threaded through
every step.  `messages` is the one channel annotated with `operator.add`. -/
structure BlogState where
  topic : String
  niche : Option String
  target_audience : String
  word_count : Nat
  tone : String
  include_code_examples : Bool
  current_step : String
  messages : List String
  research_findings : Option Dict
  outline : Option Dict
  draft : Option Dict
  review_feedback : Option String
  needs_revision : Bool
  revision_count : Nat
  final_content : Option Dict
  seo_metadata : Option Dict
  status : String
  error : Option String

/-- A partial update returned by a node: for every overwrite-semantics
channel, `none` means the key is absent from the returned dict and
`some v` means the node wrote `v` (for optional-typed channels the
written value is itself an `Option`, `some none` modelling an explicit
`None`).  `messages` carries the list to append. -/
structure BlogUpdate where
  current_step : Option String
  messages : List String
  research_findings : Option (Option Dict)
  outline : Option (Option Dict)
  draft : Option (Option Dict)
  review_feedback : Option (Option String)
  needs_revision : Option Bool
  revision_count : Option Nat
  final_content : Option (Option Dict)
  seo_metadata : Option (Option Dict)
  status : Option String
  error : Option (Option String)

/-- The empty update: no keys present. -/
def emptyUpdate : BlogUpdate :=
  ⟨none, [], none, none, none, none, none, none, none, none, none, none⟩

/-- The LangGraph merge of a partial update into the state: every channel
is last-value-overwrite except `messages`, whose `operator.add`
annotation concatenates. -/
def mergeState (s : BlogState) (u : BlogUpdate) : BlogState :=
  { s with
    current_step := u.current_step.getD s.current_step
    messages := s.messages ++ u.messages
    research_findings := u.research_findings.getD s.research_findings
    outline := u.outline.getD s.outline
    draft := u.draft.getD s.draft
    review_feedback := u.review_feedback.getD s.review_feedback
    needs_revision := u.needs_revision.getD s.needs_revision
    revision_count := u.revision_count.getD s.revision_count
    final_content := u.final_content.getD s.final_content
    seo_metadata := u.seo_metadata.getD s.seo_metadata
    status := u.status.getD s.status
    error := u.error.getD s.error }

@[simp] theorem mergeState_topic (s : BlogState) (u : BlogUpdate) :
    (mergeState s u).topic = s.topic := rfl

@[simp] theorem mergeState_niche (s : BlogState) (u : BlogUpdate) :
    (mergeState s u).niche = s.niche := rfl

@[simp] theorem mergeState_target_audience (s : BlogState) (u : BlogUpdate) :
    (mergeState s u).target_audience = s.target_audience := rfl

@[simp] theorem mergeState_word_count (s : BlogState) (u : BlogUpdate) :
    (mergeState s u).word_count = s.word_count := rfl

@[simp] theorem mergeState_tone (s : BlogState) (u : BlogUpdate) :
    (mergeState s u).tone = s.tone := rfl

@[simp] theorem mergeState_include_code_examples (s : BlogState) (u : BlogUpdate) :
    (mergeState s u).include_code_examples = s.include_code_examples := rfl

@[simp] theorem mergeState_current_step (s : BlogState) (u : BlogUpdate) :
    (mergeState s u).current_step = u.current_step.getD s.current_step := rfl

@[simp] theorem mergeState_messages (s : BlogState) (u : BlogUpdate) :
    (mergeState s u).messages = s.messages ++ u.messages := rfl

@[simp] theorem mergeState_research_findings (s : BlogState) (u : BlogUpdate) :
    (mergeState s u).research_findings = u.research_findings.getD s.research_findings := rfl

@[simp] theorem mergeState_outline (s : BlogState) (u : BlogUpdate) :
    (mergeState s u).outline = u.outline.getD s.outline := rfl

@[simp] theorem mergeState_draft (s : BlogState) (u : BlogUpdate) :
    (mergeState s u).draft = u.draft.getD s.draft := rfl

@[simp] theorem mergeState_review_feedback (s : BlogState) (u : BlogUpdate) :
    (mergeState s u).review_feedback = u.review_feedback.getD s.review_feedback := rfl

@[simp] theorem mergeState_needs_revision (s : BlogState) (u : BlogUpdate) :
    (mergeState s u).needs_revision = u.needs_revision.getD s.needs_revision := rfl

@[simp] theorem mergeState_revision_count (s : BlogState) (u : BlogUpdate) :
    (mergeState s u).revision_count = u.revision_count.getD s.revision_count := rfl

@[simp] theorem mergeState_final_content (s : BlogState) (u : BlogUpdate) :
    (mergeState s u).final_content = u.final_content.getD s.final_content := rfl

@[simp] theorem mergeState_seo_metadata (s : BlogState) (u : BlogUpdate) :
    (mergeState s u).seo_metadata = u.seo_metadata.getD s.seo_metadata := rfl

@[simp] theorem mergeState_status (s : BlogState) (u : BlogUpdate) :
    (mergeState s u).status = u.status.getD s.status := rfl

@[simp] theorem mergeState_error (s : BlogState) (u : BlogUpdate) :
    (mergeState s u).error = u.error.getD s.error := rfl

/-! ### Content service (`src/app/services/content_service.py`)

Each service method first awaits one external LLM call (modelled by the
oracle) and then post-processes the raw response; the post-processing is
embedded here.  Prompt construction is not observable and is omitted. -/

/-- Embeds `ContentService.generate_outline` (lines 20-56), applied to the raw
structured response of the LLM call.  `outlineId` is the random
`uuid4().hex[:12]` suffix. -/
def generate_outline (resp : Dict) (outlineId : String) (topic : String)
    (word_count : Nat) : Dict :=
  let r1 := if (dget resp "id").isSome then resp
            else dset resp "id" (.vStr ("outline_" ++ outlineId))
  let r2 := dsetdefault r1 "title" (.vStr ("Guide to " ++ topic))
  let r3 := dsetdefault r2 "hook" (.vStr "")
  let r4 := dsetdefault r3 "sections" (.vList [])
  let r5 := dsetdefault r4 "seo_suggestions" (.vDict [])
  if (dget r5 "estimated_words").isSome then r5
  else dset r5 "estimated_words" (.vNat word_count)

/-- Embeds `ContentService.generate_draft` (lines 87-131), applied to the markdown
`content` returned by the LLM call.  `draftId` is the random
`uuid4().hex[:12]` suffix. -/
def generate_draft (content : String) (draftId : String) (topic : String)
    (tone : String) (word_count : Nat) (include_code_examples : Bool) : Dict :=
  let title := if content.startsWith "# "
    then (((content.splitOn "\n").headD "").replace "# " "").trim
    else topic
  [("id", .vStr ("draft_" ++ draftId)),
   ("title", .vStr title),
   ("content", .vStr content),
   ("word_count", .vNat (pyWordCount content)),
   ("metadata", .vDict
     [("tone", .vStr tone),
      ("target_word_count", .vNat word_count),
      ("has_code_examples", .vBool include_code_examples)])]

/-- Embeds `ContentService.optimize_seo` (lines 133-157), applied to the raw
structured response of the LLM call.  In the workflow `keywords` is
always `None`, so the `keywords` default is the empty list. -/
def optimize_seo (resp : Dict) (content : Val) : Dict :=
  let r1 := dsetdefault resp "optimized_content" content
  let r2 := dsetdefault r1 "keywords" (.vList [])
  let r3 := dsetdefault r2 "meta_description" (.vStr "")
  dsetdefault r3 "suggestions" (.vList [])

/-! ### Step executors (`src/app/agents/blog_agent.py`)

Each node takes the outcome of its external call (`Except.error e` models
a raised exception with `str(e) = e`) and the current state, and returns
the partial update of its `return` statement. -/

/-- Embeds `research_node` (lines 54-76). -/
def research_node (ext : Except String Dict) (s : BlogState) : BlogUpdate :=
  match ext with
  | .ok findings =>
    { current_step := some "research_complete"
      messages := ["Research completed: Found " ++
        toString (pyLen (dgetD findings "findings" (.vList []))) ++ " findings"]
      research_findings := some (some findings)
      outline := none, draft := none, review_feedback := none
      needs_revision := none, revision_count := none
      final_content := none, seo_metadata := none
      status := some "in_progress", error := none }
  | .error e =>
    { current_step := none
      messages := ["Research failed: " ++ e]
      research_findings := none
      outline := none, draft := none, review_feedback := none
      needs_revision := none, revision_count := none
      final_content := none, seo_metadata := none
      status := some "failed", error := some (some ("Research failed: " ++ e)) }

/-- Embeds `outline_node` (lines 79-103).  The success branch runs
`generate_outline` on the structured response. -/
def outline_node (ext : Except String Dict) (outlineId : String)
    (s : BlogState) : BlogUpdate :=
  match ext with
  | .ok resp =>
    let outline := generate_outline resp outlineId s.topic s.word_count
    { current_step := some "outline_complete"
      messages := ["Outline created: " ++
        toString (pyLen (dgetD outline "sections" (.vList []))) ++ " sections"]
      research_findings := none
      outline := some (some outline)
      draft := none, review_feedback := none
      needs_revision := none, revision_count := none
      final_content := none, seo_metadata := none
      status := some "in_progress", error := none }
  | .error e =>
    { current_step := none
      messages := ["Outline failed: " ++ e]
      research_findings := none, outline := none
      draft := none, review_feedback := none
      needs_revision := none, revision_count := none
      final_content := none, seo_metadata := none
      status := some "failed"
      error := some (some ("Outline generation failed: " ++ e)) }

/-- Embeds `draft_node` (lines 106-130).  The success branch runs
`generate_draft` on the generated markdown. -/
def draft_node (ext : Except String String) (draftId : String)
    (s : BlogState) : BlogUpdate :=
  match ext with
  | .ok content =>
    let draft := generate_draft content draftId s.topic s.tone
      s.word_count s.include_code_examples
    { current_step := some "draft_complete"
      messages := ["Draft written: " ++
        pyStr (dgetD draft "word_count" (.vNat 0)) ++ " words"]
      research_findings := none, outline := none
      draft := some (some draft)
      review_feedback := none
      needs_revision := none, revision_count := none
      final_content := none, seo_metadata := none
      status := some "in_progress", error := none }
  | .error e =>
    { current_step := none
      messages := ["Draft failed: " ++ e]
      research_findings := none, outline := none, draft := none
      review_feedback := none
      needs_revision := none, revision_count := none
      final_content := none, seo_metadata := none
      status := some "failed"
      error := some (some ("Draft generation failed: " ++ e)) }

/-- The structured review returned by
`llm_service.generate_structured` in `review_node`; a missing field
models a missing key in the response dict. -/
structure ReviewResp where
  needs_revision : Option Bool
  quality_score : Option Int
  feedback : Option String

/-- The update of `review_node`'s `except` branch (lines 183-190). -/
def reviewExceptUpdate (e : String) : BlogUpdate :=
  { current_step := some "review_complete"
    messages := ["Review skipped due to error: " ++ e]
    research_findings := none, outline := none, draft := none
    review_feedback := some (some "")
    needs_revision := some false, revision_count := none
    final_content := none, seo_metadata := none
    status := some "in_progress", error := none }

/-- Embeds `review_node` (lines 133-190).  When `state["draft"]` is `None`,
`state.get("draft", {}).get("content", "")` raises an `AttributeError`
before the LLM call, so the `except` branch runs whatever the oracle
says; its message is `str` of the `AttributeError`. -/
def review_node (ext : Except String ReviewResp) (s : BlogState) : BlogUpdate :=
  match s.draft, ext with
  | none, _ => reviewExceptUpdate "AttributeError"
  | some _, .error e => reviewExceptUpdate e
  | some _, .ok review =>
    let needs_revision₀ := review.needs_revision.getD false
    let quality_score := review.quality_score.getD 8
    let needs_revision := if s.revision_count ≥ 1 then false else needs_revision₀
    { current_step := some "review_complete"
      messages := ["Review complete: Score " ++ toString quality_score ++
        "/10, Needs revision: " ++ (if needs_revision then "True" else "False")]
      research_findings := none, outline := none, draft := none
      review_feedback := some (some (review.feedback.getD ""))
      needs_revision := some (needs_revision && decide (quality_score < 7))
      revision_count := some (s.revision_count + 1)
      final_content := none, seo_metadata := none
      status := some "in_progress", error := none }

/-- Embeds `optimize_node` (lines 193-232).  When `state["draft"]` is `None`,
`draft.get("content", "")` raises before the LLM call and the `except`
branch returns the (null) draft as final content. -/
def optimize_node (ext : Except String Dict) (s : BlogState) : BlogUpdate :=
  match s.draft with
  | none =>
    { current_step := some "complete"
      messages := ["SEO skipped: AttributeError, using draft as final"]
      research_findings := none, outline := none, draft := none
      review_feedback := none
      needs_revision := none, revision_count := none
      final_content := some none, seo_metadata := some (some [])
      status := some "completed", error := none }
  | some d =>
    match ext with
    | .ok resp =>
      let content := dgetD d "content" (.vStr "")
      let seo_result := optimize_seo resp content
      { current_step := some "complete"
        messages := ["SEO optimization complete"]
        research_findings := none, outline := none, draft := none
        review_feedback := none
        needs_revision := none, revision_count := none
        final_content := some (some
          [("id", dgetD d "id" (.vStr "")),
           ("title", dgetD d "title" (.vStr s.topic)),
           ("content", dgetD seo_result "optimized_content" content),
           ("word_count", dgetD d "word_count" (.vNat 0))])
        seo_metadata := some (some
          [("keywords", dgetD seo_result "keywords" (.vList [])),
           ("meta_description", dgetD seo_result "meta_description" (.vStr "")),
           ("suggestions", dgetD seo_result "suggestions" (.vList []))])
        status := some "completed", error := none }
    | .error e =>
      { current_step := some "complete"
        messages := ["SEO skipped: " ++ e ++ ", using draft as final"]
        research_findings := none, outline := none, draft := none
        review_feedback := none
        needs_revision := none, revision_count := none
        final_content := some (some d), seo_metadata := some (some [])
        status := some "completed", error := none }

/-! ### Graph controller (`create_blog_workflow`, lines 235-289) -/

/-- Embeds `should_revise` (lines 235-241): the conditional edge after review. -/
def should_revise (s : BlogState) : String :=
  if pyTruthyStr s.error then "end"
  else if s.needs_revision then "draft"
  else "optimize"

/-- Embeds `check_error` (lines 244-248).  Defined in the source but never wired
into the graph: `create_blog_workflow` adds only plain edges between
research, outline, draft and review. -/
def check_error (s : BlogState) : String :=
  if pyTruthyStr s.error then "end" else "continue"

/-- The nodes of the compiled graph, plus the `END` sentinel. -/
inductive Node where
  | research | outline | draft | review | optimize | done
deriving DecidableEq

/-- Outcomes of every external call a run can make.  `draft`, `draftId`
and `review` are indexed by how many times their node has already run
(the revision loop re-enters them). -/
structure Oracle where
  research : Except String Dict
  outline : Except String Dict
  outlineId : String
  draft : Nat → Except String String
  draftId : Nat → String
  review : Nat → Except String ReviewResp
  seo : Except String Dict

/-- A scheduler configuration: the node about to execute, the state, and
bookkeeping counters (how often draft/review ran, whether optimize ran). -/
structure Config where
  node : Node
  state : BlogState
  draftCalls : Nat
  reviewCalls : Nat
  optimizeRan : Bool

/-- Target of the conditional edge after review
(`add_conditional_edges("review", should_revise, ...)`). -/
def routeOf (s : BlogState) : Node :=
  match should_revise s with
  | "end" => Node.done
  | "draft" => Node.draft
  | _ => Node.optimize

/-- One scheduler step: run the current node, merge its update, follow
the outgoing edge.  Edges research→outline→draft→review are
unconditional (`add_edge`); only review has a conditional edge. -/
def step (o : Oracle) (c : Config) : Config :=
  match c.node with
  | .research =>
    { c with node := .outline
             state := mergeState c.state (research_node o.research c.state) }
  | .outline =>
    { c with node := .draft
             state := mergeState c.state (outline_node o.outline o.outlineId c.state) }
  | .draft =>
    { c with node := .review
             state := mergeState c.state
               (draft_node (o.draft c.draftCalls) (o.draftId c.draftCalls) c.state)
             draftCalls := c.draftCalls + 1 }
  | .review =>
    let s := mergeState c.state (review_node (o.review c.reviewCalls) c.state)
    { c with node := routeOf s, state := s, reviewCalls := c.reviewCalls + 1 }
  | .optimize =>
    { c with node := .done
             state := mergeState c.state (optimize_node o.seo c.state)
             optimizeRan := true }
  | .done => c

/-- Iterate the scheduler `n` times. -/
def run (o : Oracle) : Nat → Config → Config
  | 0, c => c
  | n + 1, c => run o n (step o c)

/-- Caller input of `run_blog_workflow` (lines 335-343). -/
structure WorkflowInput where
  topic : String
  niche : Option String
  target_audience : String
  word_count : Nat
  tone : String
  include_code_examples : Bool

/-- Embeds `initial_state` (lines 346-365). -/
def initialState (i : WorkflowInput) : BlogState :=
  { topic := i.topic
    niche := i.niche
    target_audience := i.target_audience
    word_count := i.word_count
    tone := i.tone
    include_code_examples := i.include_code_examples
    current_step := "starting"
    messages := ["Starting blog workflow for: " ++ i.topic]
    research_findings := none
    outline := none
    draft := none
    review_feedback := none
    needs_revision := false
    revision_count := 0
    final_content := none
    seo_metadata := none
    status := "in_progress"
    error := none }

/-- The configuration at the entry point (`set_entry_point("research")`). -/
def initConfig (i : WorkflowInput) : Config :=
  { node := .research, state := initialState i
    draftCalls := 0, reviewCalls := 0, optimizeRan := false }

/-- The terminal configuration of a run.  Seven steps always suffice
(research, outline, draft, review, at most one extra draft+review,
optimize); `workflow_reaches_done` below proves the scheduler is at
`done` by then. -/
def terminalConfig (o : Oracle) (i : WorkflowInput) : Config :=
  run o 7 (initConfig i)

/-- The caller-facing result dict built by `run_blog_workflow`
(lines 370-380). -/
structure WorkflowResult where
  status : String
  topic : String
  messages : List String
  research : Option Dict
  outline : Option Dict
  draft : Option Dict
  final_content : Option Dict
  seo_metadata : Option Dict
  error : Option String

/-- Embeds `run_blog_workflow` (lines 335-393), without the persistence
side effects. -/
def run_blog_workflow (o : Oracle) (i : WorkflowInput) : WorkflowResult :=
  let fs := (terminalConfig o i).state
  { status := fs.status
    topic := i.topic
    messages := fs.messages
    research := fs.research_findings
    outline := fs.outline
    draft := fs.draft
    final_content := fs.final_content
    seo_metadata := fs.seo_metadata
    error := fs.error }

/-- The intermediate states of the linear front of every run:
`runS1` … `runS4` are the states after research, outline, first draft
and first review; `runS5`, `runS6` those after the optional second
draft and second review. -/
def runS1 (o : Oracle) (i : WorkflowInput) : BlogState :=
  mergeState (initialState i) (research_node o.research (initialState i))

def runS2 (o : Oracle) (i : WorkflowInput) : BlogState :=
  mergeState (runS1 o i) (outline_node o.outline o.outlineId (runS1 o i))

def runS3 (o : Oracle) (i : WorkflowInput) : BlogState :=
  mergeState (runS2 o i) (draft_node (o.draft 0) (o.draftId 0) (runS2 o i))

def runS4 (o : Oracle) (i : WorkflowInput) : BlogState :=
  mergeState (runS3 o i) (review_node (o.review 0) (runS3 o i))

def runS5 (o : Oracle) (i : WorkflowInput) : BlogState :=
  mergeState (runS4 o i) (draft_node (o.draft 1) (o.draftId 1) (runS4 o i))

def runS6 (o : Oracle) (i : WorkflowInput) : BlogState :=
  mergeState (runS5 o i) (review_node (o.review 1) (runS5 o i))

/-! ### Small facts about the step executors' updates -/

theorem option_getD_idem {α : Type _} (a : Option α) (b : α) :
    a.getD (a.getD b) = a.getD b := by
  cases a <;> rfl

theorem string_append_ne_empty (a b : String) (h : a ≠ "") : a ++ b ≠ "" := by
  intro hc
  apply h
  have hl := congrArg String.length hc
  rw [String.length_append] at hl
  have ha : a.length = 0 := by
    have : ("" : String).length = 0 := rfl
    omega
  cases a with
  | mk l =>
    cases l with
    | nil => rfl
    | cons c cs => simp [String.length] at ha

theorem pyTruthyStr_append (pre e : String) (h : pre ≠ "") :
    pyTruthyStr (some (pre ++ e)) = true := by
  simp [pyTruthyStr, string_append_ne_empty pre e h]

@[simp] theorem research_node_revision_count (ext : Except String Dict) (s : BlogState) :
    (research_node ext s).revision_count = none := by cases ext <;> rfl

@[simp] theorem research_node_needs_revision (ext : Except String Dict) (s : BlogState) :
    (research_node ext s).needs_revision = none := by cases ext <;> rfl

@[simp] theorem research_node_outline (ext : Except String Dict) (s : BlogState) :
    (research_node ext s).outline = none := by cases ext <;> rfl

@[simp] theorem research_node_draft (ext : Except String Dict) (s : BlogState) :
    (research_node ext s).draft = none := by cases ext <;> rfl

@[simp] theorem research_node_final_content (ext : Except String Dict) (s : BlogState) :
    (research_node ext s).final_content = none := by cases ext <;> rfl

@[simp] theorem research_node_seo_metadata (ext : Except String Dict) (s : BlogState) :
    (research_node ext s).seo_metadata = none := by cases ext <;> rfl

theorem research_node_error_ok (r : Dict) (s : BlogState) :
    (research_node (.ok r) s).error = none := rfl

theorem research_node_error_err (e : String) (s : BlogState) :
    (research_node (.error e) s).error = some (some ("Research failed: " ++ e)) := rfl

@[simp] theorem outline_node_revision_count (ext : Except String Dict) (oid : String)
    (s : BlogState) : (outline_node ext oid s).revision_count = none := by cases ext <;> rfl

@[simp] theorem outline_node_needs_revision (ext : Except String Dict) (oid : String)
    (s : BlogState) : (outline_node ext oid s).needs_revision = none := by cases ext <;> rfl

@[simp] theorem outline_node_draft (ext : Except String Dict) (oid : String)
    (s : BlogState) : (outline_node ext oid s).draft = none := by cases ext <;> rfl

@[simp] theorem outline_node_final_content (ext : Except String Dict) (oid : String)
    (s : BlogState) : (outline_node ext oid s).final_content = none := by cases ext <;> rfl

@[simp] theorem outline_node_seo_metadata (ext : Except String Dict) (oid : String)
    (s : BlogState) : (outline_node ext oid s).seo_metadata = none := by cases ext <;> rfl

theorem outline_node_error_ok (r : Dict) (oid : String) (s : BlogState) :
    (outline_node (.ok r) oid s).error = none := rfl

theorem outline_node_error_err (e oid : String) (s : BlogState) :
    (outline_node (.error e) oid s).error
      = some (some ("Outline generation failed: " ++ e)) := rfl

theorem outline_node_outline_ok (r : Dict) (oid : String) (s : BlogState) :
    (outline_node (.ok r) oid s).outline
      = some (some (generate_outline r oid s.topic s.word_count)) := rfl

@[simp] theorem draft_node_revision_count (ext : Except String String) (did : String)
    (s : BlogState) : (draft_node ext did s).revision_count = none := by cases ext <;> rfl

@[simp] theorem draft_node_needs_revision (ext : Except String String) (did : String)
    (s : BlogState) : (draft_node ext did s).needs_revision = none := by cases ext <;> rfl

@[simp] theorem draft_node_outline (ext : Except String String) (did : String)
    (s : BlogState) : (draft_node ext did s).outline = none := by cases ext <;> rfl

@[simp] theorem draft_node_final_content (ext : Except String String) (did : String)
    (s : BlogState) : (draft_node ext did s).final_content = none := by cases ext <;> rfl

@[simp] theorem draft_node_seo_metadata (ext : Except String String) (did : String)
    (s : BlogState) : (draft_node ext did s).seo_metadata = none := by cases ext <;> rfl

theorem draft_node_error_ok (content did : String) (s : BlogState) :
    (draft_node (.ok content) did s).error = none := rfl

theorem draft_node_error_err (e did : String) (s : BlogState) :
    (draft_node (.error e) did s).error
      = some (some ("Draft generation failed: " ++ e)) := rfl

theorem draft_node_draft_ok (content did : String) (s : BlogState) :
    (draft_node (.ok content) did s).draft
      = some (some (generate_draft content did s.topic s.tone
          s.word_count s.include_code_examples)) := rfl

@[simp] theorem review_node_error (ext : Except String ReviewResp) (s : BlogState) :
    (review_node ext s).error = none := by
  cases h : s.draft <;> cases ext <;> simp [review_node, reviewExceptUpdate, h]

@[simp] theorem review_node_status (ext : Except String ReviewResp) (s : BlogState) :
    (review_node ext s).status = some "in_progress" := by
  cases h : s.draft <;> cases ext <;> simp [review_node, reviewExceptUpdate, h]

@[simp] theorem review_node_outline (ext : Except String ReviewResp) (s : BlogState) :
    (review_node ext s).outline = none := by
  cases h : s.draft <;> cases ext <;> simp [review_node, reviewExceptUpdate, h]

@[simp] theorem review_node_draft (ext : Except String ReviewResp) (s : BlogState) :
    (review_node ext s).draft = none := by
  cases h : s.draft <;> cases ext <;> simp [review_node, reviewExceptUpdate, h]

@[simp] theorem review_node_final_content (ext : Except String ReviewResp) (s : BlogState) :
    (review_node ext s).final_content = none := by
  cases h : s.draft <;> cases ext <;> simp [review_node, reviewExceptUpdate, h]

@[simp] theorem review_node_seo_metadata (ext : Except String ReviewResp) (s : BlogState) :
    (review_node ext s).seo_metadata = none := by
  cases h : s.draft <;> cases ext <;> simp [review_node, reviewExceptUpdate, h]

theorem review_node_of_draft_none (ext : Except String ReviewResp) (s : BlogState)
    (h : s.draft = none) : review_node ext s = reviewExceptUpdate "AttributeError" := by
  cases ext <;> simp [review_node, h]

theorem review_node_of_err (e : String) (s : BlogState) (d : Dict)
    (h : s.draft = some d) : review_node (.error e) s = reviewExceptUpdate e := by
  simp [review_node, h]

theorem review_node_needs_revision_ok (r : ReviewResp) (s : BlogState) (d : Dict)
    (h : s.draft = some d) :
    (review_node (.ok r) s).needs_revision
      = some ((if s.revision_count ≥ 1 then false else r.needs_revision.getD false)
          && decide (r.quality_score.getD 8 < 7)) := by
  simp [review_node, h]

theorem review_node_revision_count_ok (r : ReviewResp) (s : BlogState) (d : Dict)
    (h : s.draft = some d) :
    (review_node (.ok r) s).revision_count = some (s.revision_count + 1) := by
  simp [review_node, h]

/-- The revision counter written by a review pass is absent (except
branch) or the incremented pre-state counter (success branch). -/
theorem review_node_revision_count_cases (ext : Except String ReviewResp) (s : BlogState) :
    (review_node ext s).revision_count = none ∨
      (review_node ext s).revision_count = some (s.revision_count + 1) := by
  cases h : s.draft with
  | none => exact Or.inl (by rw [review_node_of_draft_none ext s h]; rfl)
  | some d =>
    cases ext with
    | error e => exact Or.inl (by rw [review_node_of_err e s d h]; rfl)
    | ok r => exact Or.inr (review_node_revision_count_ok r s d h)

/-- Once a revision has happened, every review pass writes
`needs_revision = false`. -/
theorem review_node_needs_revision_false_of_rc (ext : Except String ReviewResp)
    (s : BlogState) (h : 1 ≤ s.revision_count) :
    (review_node ext s).needs_revision = some false := by
  cases hd : s.draft with
  | none => rw [review_node_of_draft_none ext s hd]; rfl
  | some d =>
    cases ext with
    | error e => rw [review_node_of_err e s d hd]; rfl
    | ok r =>
      rw [review_node_needs_revision_ok r s d hd]
      simp [h]

/-- If a review pass writes `needs_revision = true` it took the success
branch, so it also wrote the incremented revision counter. -/
theorem review_merged_rc_of_nr_true (ext : Except String ReviewResp) (s : BlogState)
    (h : (mergeState s (review_node ext s)).needs_revision = true) :
    (mergeState s (review_node ext s)).revision_count = s.revision_count + 1 := by
  cases hd : s.draft with
  | none =>
    rw [mergeState_needs_revision, review_node_of_draft_none ext s hd] at h
    exact absurd h (by simp [reviewExceptUpdate])
  | some d =>
    cases ext with
    | error e =>
      rw [mergeState_needs_revision, review_node_of_err e s d hd] at h
      exact absurd h (by simp [reviewExceptUpdate])
    | ok r =>
      rw [mergeState_revision_count, review_node_revision_count_ok r s d hd]
      rfl

@[simp] theorem optimize_node_status (ext : Except String Dict) (s : BlogState) :
    (optimize_node ext s).status = some "completed" := by
  cases h : s.draft <;> cases ext <;> simp [optimize_node, h]

@[simp] theorem optimize_node_error (ext : Except String Dict) (s : BlogState) :
    (optimize_node ext s).error = none := by
  cases h : s.draft <;> cases ext <;> simp [optimize_node, h]

@[simp] theorem optimize_node_outline (ext : Except String Dict) (s : BlogState) :
    (optimize_node ext s).outline = none := by
  cases h : s.draft <;> cases ext <;> simp [optimize_node, h]

@[simp] theorem optimize_node_draft (ext : Except String Dict) (s : BlogState) :
    (optimize_node ext s).draft = none := by
  cases h : s.draft <;> cases ext <;> simp [optimize_node, h]

@[simp] theorem optimize_node_revision_count (ext : Except String Dict) (s : BlogState) :
    (optimize_node ext s).revision_count = none := by
  cases h : s.draft <;> cases ext <;> simp [optimize_node, h]

@[simp] theorem optimize_node_needs_revision (ext : Except String Dict) (s : BlogState) :
    (optimize_node ext s).needs_revision = none := by
  cases h : s.draft <;> cases ext <;> simp [optimize_node, h]

/-- The except branch of `optimize_node` hands the state's draft through
as final content (a null draft stays null). -/
theorem optimize_node_final_content_err (e : String) (s : BlogState) :
    (optimize_node (.error e) s).final_content = some s.draft := by
  cases h : s.draft <;> simp [optimize_node, h]

theorem optimize_node_seo_metadata_err (e : String) (s : BlogState) :
    (optimize_node (.error e) s).seo_metadata = some (some []) := by
  cases h : s.draft <;> simp [optimize_node, h]

/-- Both branches of `optimize_node` write the `final_content` key. -/
theorem optimize_node_final_content_ne_none (ext : Except String Dict) (s : BlogState) :
    (optimize_node ext s).final_content ≠ none := by
  cases h : s.draft <;> cases ext <;> simp [optimize_node, h]

/-! ### Facts about the conditional edge and the scheduler -/

theorem should_revise_cases (s : BlogState) :
    should_revise s = "end" ∨ should_revise s = "draft" ∨ should_revise s = "optimize" := by
  unfold should_revise
  split
  · exact Or.inl rfl
  · split
    · exact Or.inr (Or.inl rfl)
    · exact Or.inr (Or.inr rfl)

theorem nr_true_of_should_revise_draft (s : BlogState)
    (h : should_revise s = "draft") : s.needs_revision = true := by
  unfold should_revise at h
  cases he : pyTruthyStr s.error with
  | true => rw [he] at h; simp at h
  | false =>
    rw [he] at h
    cases hn : s.needs_revision with
    | true => rfl
    | false => rw [hn] at h; simp at h

theorem error_falsy_of_should_revise_draft (s : BlogState)
    (h : should_revise s = "draft") : pyTruthyStr s.error = false := by
  unfold should_revise at h
  cases he : pyTruthyStr s.error with
  | false => rfl
  | true => rw [he] at h; simp at h

theorem error_falsy_of_should_revise_optimize (s : BlogState)
    (h : should_revise s = "optimize") : pyTruthyStr s.error = false := by
  unfold should_revise at h
  cases he : pyTruthyStr s.error with
  | false => rfl
  | true => rw [he] at h; simp at h

theorem should_revise_ne_draft_of_nr_false (s : BlogState)
    (h : s.needs_revision = false) : should_revise s ≠ "draft" := by
  intro hc
  exact absurd (nr_true_of_should_revise_draft s hc) (by rw [h]; decide)

theorem routeOf_end (s : BlogState) (h : should_revise s = "end") :
    routeOf s = Node.done := by
  unfold routeOf; rw [h]; rfl

theorem routeOf_draft (s : BlogState) (h : should_revise s = "draft") :
    routeOf s = Node.draft := by
  unfold routeOf; rw [h]; rfl

theorem routeOf_optimize (s : BlogState) (h : should_revise s = "optimize") :
    routeOf s = Node.optimize := by
  unfold routeOf; rw [h]; rfl

theorem step_of_done (o : Oracle) (c : Config) (h : c.node = Node.done) :
    step o c = c := by
  unfold step; rw [h]

theorem run_of_done (o : Oracle) (n : Nat) (c : Config) (h : c.node = Node.done) :
    run o n c = c := by
  induction n generalizing c with
  | zero => rfl
  | succ n ih =>
    show run o n (step o c) = c
    rw [step_of_done o c h]
    exact ih c h

/-! ### States along the linear front of a run -/

@[simp] theorem runS1_topic (o : Oracle) (i : WorkflowInput) :
    (runS1 o i).topic = i.topic := rfl

@[simp] theorem runS1_word_count (o : Oracle) (i : WorkflowInput) :
    (runS1 o i).word_count = i.word_count := rfl

@[simp] theorem runS2_topic (o : Oracle) (i : WorkflowInput) :
    (runS2 o i).topic = i.topic := rfl

@[simp] theorem runS2_tone (o : Oracle) (i : WorkflowInput) :
    (runS2 o i).tone = i.tone := rfl

@[simp] theorem runS2_word_count (o : Oracle) (i : WorkflowInput) :
    (runS2 o i).word_count = i.word_count := rfl

@[simp] theorem runS2_include_code_examples (o : Oracle) (i : WorkflowInput) :
    (runS2 o i).include_code_examples = i.include_code_examples := rfl

@[simp] theorem runS4_topic (o : Oracle) (i : WorkflowInput) :
    (runS4 o i).topic = i.topic := rfl

@[simp] theorem runS4_tone (o : Oracle) (i : WorkflowInput) :
    (runS4 o i).tone = i.tone := rfl

@[simp] theorem runS4_word_count (o : Oracle) (i : WorkflowInput) :
    (runS4 o i).word_count = i.word_count := rfl

@[simp] theorem runS4_include_code_examples (o : Oracle) (i : WorkflowInput) :
    (runS4 o i).include_code_examples = i.include_code_examples := rfl

theorem runS3_revision_count (o : Oracle) (i : WorkflowInput) :
    (runS3 o i).revision_count = 0 := by
  simp [runS3, runS2, runS1, initialState]

theorem runS4_status (o : Oracle) (i : WorkflowInput) :
    (runS4 o i).status = "in_progress" := by
  simp [runS4]

theorem runS6_status (o : Oracle) (i : WorkflowInput) :
    (runS6 o i).status = "in_progress" := by
  simp [runS6]

theorem runS4_error_eq (o : Oracle) (i : WorkflowInput) :
    (runS4 o i).error = (runS3 o i).error := by
  simp [runS4]

theorem runS6_error_eq (o : Oracle) (i : WorkflowInput) :
    (runS6 o i).error = (runS5 o i).error := by
  simp [runS6]

theorem runS4_draft_eq (o : Oracle) (i : WorkflowInput) :
    (runS4 o i).draft = (runS3 o i).draft := by
  simp [runS4]

theorem runS6_draft_eq (o : Oracle) (i : WorkflowInput) :
    (runS6 o i).draft = (runS5 o i).draft := by
  simp [runS6]

theorem runS4_outline_eq (o : Oracle) (i : WorkflowInput) :
    (runS4 o i).outline = (runS2 o i).outline := by
  simp [runS4, runS3]

theorem runS5_revision_count_eq (o : Oracle) (i : WorkflowInput) :
    (runS5 o i).revision_count = (runS4 o i).revision_count := by
  simp [runS5]

theorem runS4_revision_count_le (o : Oracle) (i : WorkflowInput) :
    (runS4 o i).revision_count ≤ 1 := by
  rcases review_node_revision_count_cases (o.review 0) (runS3 o i) with h | h <;>
    simp [runS4, h, runS3_revision_count]

theorem runS6_revision_count_le (o : Oracle) (i : WorkflowInput) :
    (runS6 o i).revision_count ≤ 2 := by
  have h5 : (runS5 o i).revision_count ≤ 1 := by
    rw [runS5_revision_count_eq]; exact runS4_revision_count_le o i
  rcases review_node_revision_count_cases (o.review 1) (runS5 o i) with h | h <;>
    simp [runS6, h] <;> omega

/-- If the first review loops back to drafting, the merged state already
records one revision. -/
theorem runS4_revision_count_of_draft (o : Oracle) (i : WorkflowInput)
    (h : should_revise (runS4 o i) = "draft") : (runS4 o i).revision_count = 1 := by
  have hnr : (runS4 o i).needs_revision = true := nr_true_of_should_revise_draft _ h
  have := review_merged_rc_of_nr_true (o.review 0) (runS3 o i) hnr
  rw [runS3_revision_count] at this
  exact this

/-- The second review pass always clears `needs_revision`, because the
loop already recorded a revision. -/
theorem runS6_needs_revision_false (o : Oracle) (i : WorkflowInput)
    (h : should_revise (runS4 o i) = "draft") : (runS6 o i).needs_revision = false := by
  have hrc5 : (runS5 o i).revision_count = 1 := by
    rw [runS5_revision_count_eq]; exact runS4_revision_count_of_draft o i h
  have := review_node_needs_revision_false_of_rc (o.review 1) (runS5 o i) (by omega)
  simp [runS6, this]

/-! ### The terminal configuration of every run -/

/-- After the four unconditional steps, the scheduler sits at the target of
the conditional edge evaluated on `runS4`. -/
theorem terminal_unfold (o : Oracle) (i : WorkflowInput) :
    terminalConfig o i
      = run o 3 ⟨routeOf (runS4 o i), runS4 o i, 1, 1, false⟩ := rfl

/-- Exhaustive description of every run of the compiled workflow: the first
review either routes to `END` (on a truthy error), straight to optimize, or
once around the revision loop, after which the second review can only
route to `END` or optimize.  In all four cases the scheduler reaches
`done` within seven steps, with the recorded counters. -/
theorem terminal_cases (o : Oracle) (i : WorkflowInput) :
    (should_revise (runS4 o i) = "end" ∧
      terminalConfig o i = ⟨Node.done, runS4 o i, 1, 1, false⟩) ∨
    (should_revise (runS4 o i) = "draft" ∧
      ((should_revise (runS6 o i) = "end" ∧
         terminalConfig o i = ⟨Node.done, runS6 o i, 2, 2, false⟩) ∨
       (should_revise (runS6 o i) = "optimize" ∧
         terminalConfig o i = ⟨Node.done,
           mergeState (runS6 o i) (optimize_node o.seo (runS6 o i)), 2, 2, true⟩))) ∨
    (should_revise (runS4 o i) = "optimize" ∧
      terminalConfig o i = ⟨Node.done,
        mergeState (runS4 o i) (optimize_node o.seo (runS4 o i)), 1, 1, true⟩) := by
  rcases should_revise_cases (runS4 o i) with h | h | h
  · refine Or.inl ⟨h, ?_⟩
    rw [terminal_unfold, routeOf_end _ h]
    exact run_of_done o 3 _ rfl
  · refine Or.inr (Or.inl ⟨h, ?_⟩)
    have e1 : run o 3 (⟨Node.draft, runS4 o i, 1, 1, false⟩ : Config)
        = run o 1 ⟨routeOf (runS6 o i), runS6 o i, 2, 2, false⟩ := rfl
    have hnr6 : (runS6 o i).needs_revision = false := runS6_needs_revision_false o i h
    rcases should_revise_cases (runS6 o i) with h6 | h6 | h6
    · refine Or.inl ⟨h6, ?_⟩
      rw [terminal_unfold, routeOf_draft _ h, e1, routeOf_end _ h6]
      exact run_of_done o 1 _ rfl
    · exact absurd h6 (should_revise_ne_draft_of_nr_false _ hnr6)
    · refine Or.inr ⟨h6, ?_⟩
      rw [terminal_unfold, routeOf_draft _ h, e1, routeOf_optimize _ h6]
      rfl
  · refine Or.inr (Or.inr ⟨h, ?_⟩)
    rw [terminal_unfold, routeOf_optimize _ h]
    rfl

/-- Every run halts: seven scheduler steps always reach `END`. -/
theorem workflow_reaches_done (o : Oracle) (i : WorkflowInput) :
    (terminalConfig o i).node = Node.done := by
  rcases terminal_cases o i with ⟨_, e⟩ | ⟨_, ⟨_, e⟩ | ⟨_, e⟩⟩ | ⟨_, e⟩ <;> rw [e]

/-! ### Dictionary lemmas -/

theorem dget_dset_self (d : Dict) (k : String) (v : Val) :
    dget (dset d k v) k = some v := by
  induction d with
  | nil => simp [dset, dget]
  | cons p rest ih =>
    obtain ⟨k₁, v₁⟩ := p
    by_cases h : k₁ = k
    · simp [dset, dget, h]
    · simp [dset, dget, h, ih]

theorem dget_dset_ne (d : Dict) (k k₂ : String) (v : Val) (h : k ≠ k₂) :
    dget (dset d k v) k₂ = dget d k₂ := by
  induction d with
  | nil => simp [dset, dget, h]
  | cons p rest ih =>
    obtain ⟨k₁, v₁⟩ := p
    by_cases h₁ : k₁ = k
    · subst h₁; simp [dset, dget, h]
    · simp [dset, dget, h₁, ih]

theorem dget_dsetdefault_ne (d : Dict) (k k₂ : String) (v : Val) (h : k ≠ k₂) :
    dget (dsetdefault d k v) k₂ = dget d k₂ := by
  unfold dsetdefault
  cases hk : dget d k with
  | some w => rfl
  | none => exact dget_dset_ne d k k₂ v h

/-- The embedded `generate_outline` fills in `estimated_words := word_count` exactly
when the raw response omits the key. -/
theorem generate_outline_estimated_words (resp : Dict) (oid topic : String) (wc : Nat)
    (h : dget resp "estimated_words" = none) :
    dget (generate_outline resp oid topic wc) "estimated_words" = some (.vNat wc) := by
  unfold generate_outline
  dsimp only
  have h1 : dget (if (dget resp "id").isSome then resp
      else dset resp "id" (Val.vStr ("outline_" ++ oid))) "estimated_words" = none := by
    split
    · exact h
    · rw [dget_dset_ne _ _ _ _ (by decide)]; exact h
  have h2 := (dget_dsetdefault_ne _ "title" "estimated_words"
    (Val.vStr ("Guide to " ++ topic)) (by decide)).trans h1
  have h3 := (dget_dsetdefault_ne _ "hook" "estimated_words"
    (Val.vStr "") (by decide)).trans h2
  have h4 := (dget_dsetdefault_ne _ "sections" "estimated_words"
    (Val.vList []) (by decide)).trans h3
  have h5 := (dget_dsetdefault_ne _ "seo_suggestions" "estimated_words"
    (Val.vDict []) (by decide)).trans h4
  rw [h5]
  simp [dget_dset_self]

theorem generate_draft_content_key (c did topic tone : String) (wc : Nat) (ice : Bool) :
    dget (generate_draft c did topic tone wc ice) "content" = some (.vStr c) := rfl

theorem generate_draft_word_count_key (c did topic tone : String) (wc : Nat) (ice : Bool) :
    dget (generate_draft c did topic tone wc ice) "word_count"
      = some (.vNat (pyWordCount c)) := rfl

theorem dgetD_word_count_generate_draft (c did topic tone : String) (wc : Nat) (ice : Bool) :
    dgetD (generate_draft c did topic tone wc ice) "word_count" (.vNat 0)
      = .vNat (pyWordCount c) := rfl

/-! ### Error propagation along the linear front -/

theorem runS1_error_ok (o : Oracle) (i : WorkflowInput) (r : Dict)
    (hr : o.research = .ok r) : (runS1 o i).error = none := by
  simp [runS1, hr, research_node_error_ok, initialState]

theorem runS1_error_err (o : Oracle) (i : WorkflowInput) (e : String)
    (hr : o.research = .error e) :
    (runS1 o i).error = some ("Research failed: " ++ e) := by
  simp [runS1, hr, research_node_error_err]

theorem runS2_error_ok (o : Oracle) (i : WorkflowInput) (q : Dict)
    (ho : o.outline = .ok q) : (runS2 o i).error = (runS1 o i).error := by
  simp [runS2, ho, outline_node_error_ok]

theorem runS2_error_err (o : Oracle) (i : WorkflowInput) (e : String)
    (ho : o.outline = .error e) :
    (runS2 o i).error = some ("Outline generation failed: " ++ e) := by
  simp [runS2, ho, outline_node_error_err]

theorem runS3_error_ok (o : Oracle) (i : WorkflowInput) (c : String)
    (hd : o.draft 0 = .ok c) : (runS3 o i).error = (runS2 o i).error := by
  simp [runS3, hd, draft_node_error_ok]

theorem runS3_error_err (o : Oracle) (i : WorkflowInput) (e : String)
    (hd : o.draft 0 = .error e) :
    (runS3 o i).error = some ("Draft generation failed: " ++ e) := by
  simp [runS3, hd, draft_node_error_err]

theorem runS5_error_ok (o : Oracle) (i : WorkflowInput) (c : String)
    (hd : o.draft 1 = .ok c) : (runS5 o i).error = (runS4 o i).error := by
  simp [runS5, hd, draft_node_error_ok]

theorem runS5_error_err (o : Oracle) (i : WorkflowInput) (e : String)
    (hd : o.draft 1 = .error e) :
    (runS5 o i).error = some ("Draft generation failed: " ++ e) := by
  simp [runS5, hd, draft_node_error_err]

/-- If the error channel is falsy after the first review, the research,
outline and first draft calls all succeeded. -/
theorem runS4_oracle_ok_of_falsy (o : Oracle) (i : WorkflowInput)
    (h : pyTruthyStr (runS4 o i).error = false) :
    (∃ r, o.research = .ok r) ∧ (∃ q, o.outline = .ok q) ∧ (∃ c, o.draft 0 = .ok c) := by
  rw [runS4_error_eq] at h
  cases hd : o.draft 0 with
  | error e =>
    rw [runS3_error_err o i e hd, pyTruthyStr_append _ _ (by decide)] at h
    exact Bool.noConfusion h
  | ok c =>
    rw [runS3_error_ok o i c hd] at h
    cases ho : o.outline with
    | error e =>
      rw [runS2_error_err o i e ho, pyTruthyStr_append _ _ (by decide)] at h
      exact Bool.noConfusion h
    | ok q =>
      rw [runS2_error_ok o i q ho] at h
      cases hr : o.research with
      | error e =>
        rw [runS1_error_err o i e hr, pyTruthyStr_append _ _ (by decide)] at h
        exact Bool.noConfusion h
      | ok r => exact ⟨⟨r, rfl⟩, ⟨q, rfl⟩, ⟨c, rfl⟩⟩

/-- If the error channel is falsy after the second review, the second
draft call succeeded too and the channel was falsy at the first review. -/
theorem runS6_oracle_ok_of_falsy (o : Oracle) (i : WorkflowInput)
    (h : pyTruthyStr (runS6 o i).error = false) :
    (∃ c, o.draft 1 = .ok c) ∧ pyTruthyStr (runS4 o i).error = false := by
  rw [runS6_error_eq] at h
  cases hd : o.draft 1 with
  | error e =>
    rw [runS5_error_err o i e hd, pyTruthyStr_append _ _ (by decide)] at h
    exact Bool.noConfusion h
  | ok c =>
    rw [runS5_error_ok o i c hd] at h
    exact ⟨⟨c, rfl⟩, h⟩

/-! ### Payload shapes along the run -/

theorem runS2_outline_ok (o : Oracle) (i : WorkflowInput) (q : Dict)
    (ho : o.outline = .ok q) :
    (runS2 o i).outline = some (generate_outline q o.outlineId i.topic i.word_count) := by
  simp [runS2, ho, outline_node_outline_ok]

theorem runS6_outline_eq (o : Oracle) (i : WorkflowInput) :
    (runS6 o i).outline = (runS4 o i).outline := by
  simp [runS6, runS5]

theorem runS3_draft_ok (o : Oracle) (i : WorkflowInput) (c : String)
    (hd : o.draft 0 = .ok c) :
    (runS3 o i).draft = some (generate_draft c (o.draftId 0) i.topic i.tone
      i.word_count i.include_code_examples) := by
  simp [runS3, hd, draft_node_draft_ok]

theorem runS5_draft_ok (o : Oracle) (i : WorkflowInput) (c : String)
    (hd : o.draft 1 = .ok c) :
    (runS5 o i).draft = some (generate_draft c (o.draftId 1) i.topic i.tone
      i.word_count i.include_code_examples) := by
  simp [runS5, hd, draft_node_draft_ok]

theorem optimize_node_final_content_ok (resp : Dict) (s : BlogState) (d : Dict)
    (hd : s.draft = some d) :
    (optimize_node (.ok resp) s).final_content = some (some
      [("id", dgetD d "id" (.vStr "")),
       ("title", dgetD d "title" (.vStr s.topic)),
       ("content", dgetD (optimize_seo resp (dgetD d "content" (.vStr "")))
          "optimized_content" (dgetD d "content" (.vStr ""))),
       ("word_count", dgetD d "word_count" (.vNat 0))]) := by
  simp [optimize_node, hd]

/-! ### Concrete fixtures (used by witnesses and counterexamples) -/

/-- The scenario input of the spec: topic "Building REST APIs", no niche,
word count 2000. -/
def sampleInput : WorkflowInput :=
  ⟨"Building REST APIs", none, "intermediate", 2000, "conversational", true⟩

/-- A benign review: no revision requested. -/
def okReviewResp : ReviewResp := ⟨some false, some 8, some "Looks good"⟩

/-- A low-quality review: revision requested with score 5. -/
def revisingReviewResp : ReviewResp := ⟨some true, some 5, some "Needs work"⟩

/-- An oracle for a fully successful run. -/
def oracleAllOk : Oracle :=
  { research := .ok [("findings", .vList [])]
    outline := .ok []
    outlineId := "abc123def456"
    draft := fun _ => .ok "# Building REST APIs\nhello world again"
    draftId := fun _ => "aaaabbbbcccc"
    review := fun _ => .ok okReviewResp
    seo := .ok [] }

def oracleResearchFails : Oracle := { oracleAllOk with research := .error "boom" }

def oracleOutlineFails : Oracle := { oracleAllOk with outline := .error "boom" }

def oracleSeoFails : Oracle := { oracleAllOk with seo := .error "boom" }

def oracleReviewFails : Oracle := { oracleAllOk with review := fun _ => .error "boom" }

/-- First review asks for a revision, second is benign. -/
def oracleOneRevision : Oracle :=
  { oracleAllOk with
    review := fun n => if n = 0 then .ok revisingReviewResp else .ok okReviewResp }

/-- A state with a draft present (as whenever review runs on an
error-free run). -/
def stateWithDraft : BlogState :=
  { initialState sampleInput with draft := some [("content", .vStr "hi")] }

/-- A configuration whose state carries an error. -/
def erroredConfig : Config :=
  { node := .outline
    state := { initialState sampleInput with error := some "Research failed: boom" }
    draftCalls := 0, reviewCalls := 0, optimizeRan := false }

/-! ### Claim theorems -/

/-- C4: applying the same partial update twice leaves every
overwrite-semantics channel (status, currentStep, error,
researchFindings, outline, draft, reviewFeedback, needsRevision,
revisionCount, finalContent, seoMetadata) as after applying it once,
while the messages log ends with the update's entries appended twice. -/
theorem C4_merge_idempotent_except_messages (s : BlogState) (u : BlogUpdate) :
    (mergeState (mergeState s u) u).status = (mergeState s u).status ∧
    (mergeState (mergeState s u) u).current_step = (mergeState s u).current_step ∧
    (mergeState (mergeState s u) u).error = (mergeState s u).error ∧
    (mergeState (mergeState s u) u).research_findings = (mergeState s u).research_findings ∧
    (mergeState (mergeState s u) u).outline = (mergeState s u).outline ∧
    (mergeState (mergeState s u) u).draft = (mergeState s u).draft ∧
    (mergeState (mergeState s u) u).review_feedback = (mergeState s u).review_feedback ∧
    (mergeState (mergeState s u) u).needs_revision = (mergeState s u).needs_revision ∧
    (mergeState (mergeState s u) u).revision_count = (mergeState s u).revision_count ∧
    (mergeState (mergeState s u) u).final_content = (mergeState s u).final_content ∧
    (mergeState (mergeState s u) u).seo_metadata = (mergeState s u).seo_metadata ∧
    (mergeState (mergeState s u) u).messages = s.messages ++ u.messages ++ u.messages := by
  refine ⟨?_, ?_, ?_, ?_, ?_, ?_, ?_, ?_, ?_, ?_, ?_, ?_⟩ <;>
    simp [option_getD_idem]

/-- C3: on a successful review pass (draft present, structured call
succeeded) the `needs_revision` value written into state is the
capability's recommendation AND `quality_score < 7` (score defaulting
to 8 when absent), and is unconditionally false once the pre-existing
revision count is at least 1. -/
theorem C3_review_needs_revision_formula (s : BlogState) (rev : ReviewResp) (d : Dict)
    (hd : s.draft = some d) :
    (s.revision_count = 0 →
      (mergeState s (review_node (.ok rev) s)).needs_revision
        = (rev.needs_revision.getD false && decide (rev.quality_score.getD 8 < 7))) ∧
    (1 ≤ s.revision_count →
      (mergeState s (review_node (.ok rev) s)).needs_revision = false) := by
  constructor <;> intro h <;>
    rw [mergeState_needs_revision, review_node_needs_revision_ok rev s d hd] <;>
    simp [h]

theorem C3_witness :
    stateWithDraft.draft = some [("content", Val.vStr "hi")] ∧
    stateWithDraft.revision_count = 0 ∧
    (mergeState stateWithDraft (review_node (.ok revisingReviewResp) stateWithDraft)).needs_revision
      = true := by
  refine ⟨rfl, rfl, ?_⟩
  rw [(C3_review_needs_revision_formula stateWithDraft revisingReviewResp _ rfl).1 rfl]
  rfl

/-- C5: when the review step's capability call raises, the run degrades
instead of failing: the update clears `needs_revision`, omits `error`,
keeps status `in_progress`, and appends exactly one message noting the
skipped review. -/
theorem C5_review_failure_degrades (s : BlogState) (e : String) (d : Dict)
    (hd : s.draft = some d) :
    (review_node (.error e) s).needs_revision = some false ∧
    (review_node (.error e) s).error = none ∧
    (review_node (.error e) s).status = some "in_progress" ∧
    (review_node (.error e) s).messages = ["Review skipped due to error: " ++ e] ∧
    (mergeState s (review_node (.error e) s)).status = "in_progress" ∧
    (mergeState s (review_node (.error e) s)).messages.length = s.messages.length + 1 := by
  rw [review_node_of_err e s d hd]
  exact ⟨rfl, rfl, rfl, rfl, by simp [reviewExceptUpdate], by simp [reviewExceptUpdate]⟩

theorem C5_witness :
    stateWithDraft.draft = some [("content", Val.vStr "hi")] ∧
    ((review_node (.error "kaboom") stateWithDraft).needs_revision = some false ∧
     (review_node (.error "kaboom") stateWithDraft).error = none ∧
     (review_node (.error "kaboom") stateWithDraft).status = some "in_progress" ∧
     (review_node (.error "kaboom") stateWithDraft).messages
        = ["Review skipped due to error: " ++ "kaboom"] ∧
     (mergeState stateWithDraft (review_node (.error "kaboom") stateWithDraft)).status
        = "in_progress" ∧
     (mergeState stateWithDraft (review_node (.error "kaboom") stateWithDraft)).messages.length
        = stateWithDraft.messages.length + 1) :=
  ⟨rfl, C5_review_failure_degrades stateWithDraft "kaboom" _ rfl⟩

/-- Every scheduler step only appends to the message log. -/
theorem step_messages_append (o : Oracle) (c : Config) :
    ∃ t, (step o c).state.messages = c.state.messages ++ t := by
  rcases c with ⟨node, st, dc, rc, opt⟩
  cases node
  case research => exact ⟨(research_node o.research st).messages, rfl⟩
  case outline => exact ⟨(outline_node o.outline o.outlineId st).messages, rfl⟩
  case draft => exact ⟨(draft_node (o.draft dc) (o.draftId dc) st).messages, rfl⟩
  case review => exact ⟨(review_node (o.review rc) st).messages, rfl⟩
  case optimize => exact ⟨(optimize_node o.seo st).messages, rfl⟩
  case done => exact ⟨[], by simp [step]⟩

/-- Message-log length never decreases over any number of steps. -/
theorem run_messages_length_mono (o : Oracle) (c : Config) (n : Nat) :
    c.state.messages.length ≤ (run o n c).state.messages.length := by
  induction n generalizing c with
  | zero => exact Nat.le_refl _
  | succ n ih =>
    show c.state.messages.length ≤ (run o n (step o c)).state.messages.length
    refine Nat.le_trans ?_ (ih (step o c))
    obtain ⟨t, ht⟩ := step_messages_append o c
    rw [ht]
    simp

/-- C7: the message log is append-only — every merge extends it and its
length is monotonically non-decreasing across controller steps. -/
theorem C7_messages_append_only :
    (∀ (s : BlogState) (u : BlogUpdate),
      ∃ t, (mergeState s u).messages = s.messages ++ t) ∧
    (∀ (o : Oracle) (c : Config),
      ∃ t, (step o c).state.messages = c.state.messages ++ t) ∧
    (∀ (o : Oracle) (c : Config) (n : Nat),
      c.state.messages.length ≤ (run o n c).state.messages.length) :=
  ⟨fun _ u => ⟨u.messages, rfl⟩, step_messages_append, run_messages_length_mono⟩

theorem research_node_error_not_null (ext : Except String Dict) (s : BlogState) :
    (research_node ext s).error ≠ some none := by
  cases ext <;> simp [research_node]

theorem outline_node_error_not_null (ext : Except String Dict) (oid : String)
    (s : BlogState) : (outline_node ext oid s).error ≠ some none := by
  cases ext <;> simp [outline_node]

theorem draft_node_error_not_null (ext : Except String String) (did : String)
    (s : BlogState) : (draft_node ext did s).error ≠ some none := by
  cases ext <;> simp [draft_node]

theorem merged_error_ne_none (st : BlogState) (u : BlogUpdate)
    (hu : u.error ≠ some none) (h : st.error ≠ none) :
    (mergeState st u).error ≠ none := by
  rw [mergeState_error]
  cases hue : u.error with
  | none => simpa using h
  | some v =>
    cases v with
    | none => exact absurd hue hu
    | some m => simp

theorem step_error_preserved (o : Oracle) (c : Config) (h : c.state.error ≠ none) :
    (step o c).state.error ≠ none := by
  rcases c with ⟨node, st, dc, rc, opt⟩
  cases node
  case research =>
    exact merged_error_ne_none st _ (research_node_error_not_null o.research st) h
  case outline =>
    exact merged_error_ne_none st _ (outline_node_error_not_null o.outline o.outlineId st) h
  case draft =>
    exact merged_error_ne_none st _ (draft_node_error_not_null (o.draft dc) (o.draftId dc) st) h
  case review =>
    exact merged_error_ne_none st _ (by simp) h
  case optimize =>
    exact merged_error_ne_none st _ (by simp) h
  case done => exact h

theorem run_error_preserved (o : Oracle) (c : Config) (n : Nat)
    (h : c.state.error ≠ none) : (run o n c).state.error ≠ none := by
  induction n generalizing c with
  | zero => exact h
  | succ n ih =>
    show (run o n (step o c)).state.error ≠ none
    exact ih (step o c) (step_error_preserved o c h)

/-- C10: no step executor ever writes a null `error` value — each update
either omits the key or carries a non-null string — so a non-null error
persists through every later controller step of the run. -/
theorem C10_error_never_nulled :
    (∀ (ext : Except String Dict) (s : BlogState),
      (research_node ext s).error ≠ some none) ∧
    (∀ (ext : Except String Dict) (oid : String) (s : BlogState),
      (outline_node ext oid s).error ≠ some none) ∧
    (∀ (ext : Except String String) (did : String) (s : BlogState),
      (draft_node ext did s).error ≠ some none) ∧
    (∀ (ext : Except String ReviewResp) (s : BlogState),
      (review_node ext s).error ≠ some none) ∧
    (∀ (ext : Except String Dict) (s : BlogState),
      (optimize_node ext s).error ≠ some none) ∧
    (∀ (o : Oracle) (c : Config) (n : Nat),
      c.state.error ≠ none → (run o n c).state.error ≠ none) :=
  ⟨research_node_error_not_null, outline_node_error_not_null, draft_node_error_not_null,
   fun ext s => by simp, fun ext s => by simp,
   fun o c n h => run_error_preserved o c n h⟩

theorem C10_witness :
    erroredConfig.state.error ≠ none ∧
    (run oracleAllOk 3 erroredConfig).state.error ≠ none :=
  ⟨by simp [erroredConfig, initialState],
   C10_error_never_nulled.2.2.2.2.2 oracleAllOk erroredConfig 3
     (by simp [erroredConfig, initialState])⟩

/-- C1 (code bug): in the compiled graph the edges research→outline→draft→
review are unconditional (`check_error` is defined but never wired in), so
after a research failure the remaining pre-review steps still run and the
review handler overwrites `status` back to `"in_progress"`.  At this
concrete failing run the terminal state keeps the error and never runs
optimize, but its status is `"in_progress"`, not `"failed"` as claimed. -/
theorem C1_fatal_error_run_evaluation :
    (terminalConfig oracleResearchFails sampleInput).state.error
        = some "Research failed: boom" ∧
    (terminalConfig oracleResearchFails sampleInput).state.status = "in_progress" ∧
    (terminalConfig oracleResearchFails sampleInput).optimizeRan = false ∧
    (terminalConfig oracleResearchFails sampleInput).state.final_content = none ∧
    (terminalConfig oracleResearchFails sampleInput).state.seo_metadata = none ∧
    (terminalConfig oracleResearchFails sampleInput).node = Node.done :=
  ⟨rfl, rfl, rfl, rfl, rfl, rfl⟩

/-- C8 (code bug): after an outline failure the draft step still runs
(unconditional edge) and can succeed with `outline=None`, and review
overwrites the status; the terminal result of this concrete failing run
carries the error message but has status `"in_progress"` (not `"failed"`)
and a non-null draft (not null), while `final_content` is null. -/
theorem C8_outline_failure_run_evaluation :
    (run_blog_workflow oracleOutlineFails sampleInput).error
        = some "Outline generation failed: boom" ∧
    (run_blog_workflow oracleOutlineFails sampleInput).status = "in_progress" ∧
    (run_blog_workflow oracleOutlineFails sampleInput).draft.isSome = true ∧
    (run_blog_workflow oracleOutlineFails sampleInput).final_content = none :=
  ⟨rfl, rfl, rfl, rfl⟩

/-- C2 counterexample: a run whose first review requests a revision ends
with `revision_count = 2` — the counter counts review passes, not
revisions — refuting "revisionCount ≤ 1 in every terminal state". -/
theorem C2_counterexample_revision_count_two :
    ¬ ((terminalConfig oracleOneRevision sampleInput).state.revision_count ≤ 1) := by
  decide

/-- C2 (amended): the review→draft back-edge is traversed at most once —
the draft step runs at most twice — and the terminal `revision_count` is
at most 2 (one increment per review pass, of which there are at most
two). -/
theorem C2_loop_bound (o : Oracle) (i : WorkflowInput) :
    (terminalConfig o i).state.revision_count ≤ 2 ∧
    (terminalConfig o i).draftCalls ≤ 2 ∧
    (terminalConfig o i).reviewCalls ≤ 2 := by
  rcases terminal_cases o i with ⟨h, et⟩ | ⟨h, ⟨h6, et⟩ | ⟨h6, et⟩⟩ | ⟨h, et⟩ <;> rw [et]
  · refine ⟨?_, by show (1:Nat) ≤ 2; decide, by show (1:Nat) ≤ 2; decide⟩
    show (runS4 o i).revision_count ≤ 2
    have := runS4_revision_count_le o i
    omega
  · refine ⟨?_, by show (2:Nat) ≤ 2; decide, by show (2:Nat) ≤ 2; decide⟩
    show (runS6 o i).revision_count ≤ 2
    exact runS6_revision_count_le o i
  · refine ⟨?_, by show (2:Nat) ≤ 2; decide, by show (2:Nat) ≤ 2; decide⟩
    show (mergeState (runS6 o i) (optimize_node o.seo (runS6 o i))).revision_count ≤ 2
    rw [mergeState_revision_count, optimize_node_revision_count]
    simp only [Option.getD_none]
    exact runS6_revision_count_le o i
  · refine ⟨?_, by show (1:Nat) ≤ 2; decide, by show (1:Nat) ≤ 2; decide⟩
    show (mergeState (runS4 o i) (optimize_node o.seo (runS4 o i))).revision_count ≤ 2
    rw [mergeState_revision_count, optimize_node_revision_count]
    simp only [Option.getD_none]
    have := runS4_revision_count_le o i
    omega

/-- C6: when the optimize step's capability call raises, the run still
completes: the terminal state has status `completed`, its final content
is exactly the raw draft payload, its SEO metadata is the empty mapping,
and the final content is non-null (optimize only ever executes on runs
whose draft step succeeded). -/
theorem C6_optimize_failure_degrades (o : Oracle) (i : WorkflowInput) (e : String)
    (hseo : o.seo = .error e)
    (hopt : (terminalConfig o i).optimizeRan = true) :
    (terminalConfig o i).state.status = "completed" ∧
    (terminalConfig o i).state.final_content = (terminalConfig o i).state.draft ∧
    (terminalConfig o i).state.seo_metadata = some [] ∧
    (terminalConfig o i).state.final_content ≠ none := by
  rcases terminal_cases o i with ⟨h, et⟩ | ⟨h, ⟨h6, et⟩ | ⟨h6, et⟩⟩ | ⟨h, et⟩
  · rw [et] at hopt; simp at hopt
  · rw [et] at hopt; simp at hopt
  · have hf6 := error_falsy_of_should_revise_optimize _ h6
    obtain ⟨⟨c₁, hc₁⟩, _⟩ := runS6_oracle_ok_of_falsy o i hf6
    have hdr : (runS6 o i).draft = some (generate_draft c₁ (o.draftId 1) i.topic i.tone
        i.word_count i.include_code_examples) := by
      rw [runS6_draft_eq]; exact runS5_draft_ok o i c₁ hc₁
    rw [et]
    refine ⟨?_, ?_, ?_, ?_⟩
    · show (mergeState (runS6 o i) (optimize_node o.seo (runS6 o i))).status = "completed"
      simp
    · show (mergeState (runS6 o i) (optimize_node o.seo (runS6 o i))).final_content
        = (mergeState (runS6 o i) (optimize_node o.seo (runS6 o i))).draft
      rw [mergeState_final_content, mergeState_draft, hseo,
          optimize_node_final_content_err, optimize_node_draft]
      simp
    · show (mergeState (runS6 o i) (optimize_node o.seo (runS6 o i))).seo_metadata = some []
      rw [mergeState_seo_metadata, hseo, optimize_node_seo_metadata_err]
      rfl
    · show (mergeState (runS6 o i) (optimize_node o.seo (runS6 o i))).final_content ≠ none
      rw [mergeState_final_content, hseo, optimize_node_final_content_err]
      simp [hdr]
  · have hf4 := error_falsy_of_should_revise_optimize _ h
    obtain ⟨_, _, ⟨c₀, hc₀⟩⟩ := runS4_oracle_ok_of_falsy o i hf4
    have hdr : (runS4 o i).draft = some (generate_draft c₀ (o.draftId 0) i.topic i.tone
        i.word_count i.include_code_examples) := by
      rw [runS4_draft_eq]; exact runS3_draft_ok o i c₀ hc₀
    rw [et]
    refine ⟨?_, ?_, ?_, ?_⟩
    · show (mergeState (runS4 o i) (optimize_node o.seo (runS4 o i))).status = "completed"
      simp
    · show (mergeState (runS4 o i) (optimize_node o.seo (runS4 o i))).final_content
        = (mergeState (runS4 o i) (optimize_node o.seo (runS4 o i))).draft
      rw [mergeState_final_content, mergeState_draft, hseo,
          optimize_node_final_content_err, optimize_node_draft]
      simp
    · show (mergeState (runS4 o i) (optimize_node o.seo (runS4 o i))).seo_metadata = some []
      rw [mergeState_seo_metadata, hseo, optimize_node_seo_metadata_err]
      rfl
    · show (mergeState (runS4 o i) (optimize_node o.seo (runS4 o i))).final_content ≠ none
      rw [mergeState_final_content, hseo, optimize_node_final_content_err]
      simp [hdr]

theorem C6_witness :
    oracleSeoFails.seo = Except.error "boom" ∧
    (terminalConfig oracleSeoFails sampleInput).optimizeRan = true ∧
    ((terminalConfig oracleSeoFails sampleInput).state.status = "completed" ∧
     (terminalConfig oracleSeoFails sampleInput).state.final_content
        = (terminalConfig oracleSeoFails sampleInput).state.draft ∧
     (terminalConfig oracleSeoFails sampleInput).state.seo_metadata = some [] ∧
     (terminalConfig oracleSeoFails sampleInput).state.final_content ≠ none) :=
  ⟨rfl, rfl, C6_optimize_failure_degrades oracleSeoFails sampleInput "boom" rfl rfl⟩

/-- C9: every run with wordCount 2000 whose terminal status is
`completed` has (a) a terminal outline whose `estimated_words` is 2000
whenever the generation capability's response omitted that key, and
(b) a terminal draft whose content is the generated markdown and a
terminal final content whose `word_count` equals the number of
whitespace-delimited tokens of that content. -/
theorem C9_completed_run_scenario (o : Oracle) (i : WorkflowInput)
    (hwc : i.word_count = 2000)
    (hst : (terminalConfig o i).state.status = "completed") :
    (∀ resp, o.outline = .ok resp → dget resp "estimated_words" = none →
      ∃ ol, (terminalConfig o i).state.outline = some ol ∧
        dget ol "estimated_words" = some (.vNat 2000)) ∧
    (∃ d c, (terminalConfig o i).state.draft = some d ∧
      dget d "content" = some (.vStr c) ∧
      ∃ fc, (terminalConfig o i).state.final_content = some fc ∧
        dget fc "word_count" = some (.vNat (pyWordCount c))) := by
  rcases terminal_cases o i with ⟨h, et⟩ | ⟨h, ⟨h6, et⟩ | ⟨h6, et⟩⟩ | ⟨h, et⟩
  · rw [et] at hst
    have h' : (runS4 o i).status = "completed" := hst
    rw [runS4_status] at h'
    exact absurd h' (by decide)
  · rw [et] at hst
    have h' : (runS6 o i).status = "completed" := hst
    rw [runS6_status] at h'
    exact absurd h' (by decide)
  · -- revision loop taken, then optimize
    have hf4 := error_falsy_of_should_revise_draft _ h
    obtain ⟨⟨r, hr⟩, ⟨q, hq⟩, ⟨c₀, hc₀⟩⟩ := runS4_oracle_ok_of_falsy o i hf4
    have hf6 := error_falsy_of_should_revise_optimize _ h6
    obtain ⟨⟨c₁, hc₁⟩, _⟩ := runS6_oracle_ok_of_falsy o i hf6
    have hdr : (runS6 o i).draft = some (generate_draft c₁ (o.draftId 1) i.topic i.tone
        i.word_count i.include_code_examples) := by
      rw [runS6_draft_eq]; exact runS5_draft_ok o i c₁ hc₁
    have houtl : (runS6 o i).outline
        = some (generate_outline q o.outlineId i.topic i.word_count) := by
      rw [runS6_outline_eq, runS4_outline_eq]; exact runS2_outline_ok o i q hq
    rw [et]
    constructor
    · intro resp hresp homit
      rw [hq] at hresp
      injection hresp with h'
      subst h'
      refine ⟨generate_outline q o.outlineId i.topic i.word_count, ?_, ?_⟩
      · show (mergeState (runS6 o i) (optimize_node o.seo (runS6 o i))).outline = _
        rw [mergeState_outline, optimize_node_outline]
        simp only [Option.getD_none]
        exact houtl
      · rw [hwc]
        exact generate_outline_estimated_words q _ _ 2000 homit
    · refine ⟨generate_draft c₁ (o.draftId 1) i.topic i.tone
        i.word_count i.include_code_examples, c₁, ?_, ?_, ?_⟩
      · show (mergeState (runS6 o i) (optimize_node o.seo (runS6 o i))).draft = _
        rw [mergeState_draft, optimize_node_draft]
        simp only [Option.getD_none]
        exact hdr
      · exact generate_draft_content_key c₁ (o.draftId 1) i.topic i.tone
          i.word_count i.include_code_examples
      · cases hseo : o.seo with
        | error e =>
          refine ⟨generate_draft c₁ (o.draftId 1) i.topic i.tone i.word_count i.include_code_examples, ?_, ?_⟩
          · show (mergeState (runS6 o i) (optimize_node (.error e) (runS6 o i))).final_content = _
            rw [mergeState_final_content, optimize_node_final_content_err]
            simp only [Option.getD_some]
            exact hdr
          · exact generate_draft_word_count_key c₁ (o.draftId 1) i.topic i.tone
              i.word_count i.include_code_examples
        | ok resp₂ =>
          refine ⟨[("id", dgetD (generate_draft c₁ (o.draftId 1) i.topic i.tone i.word_count i.include_code_examples) "id" (.vStr "")),
             ("title", dgetD (generate_draft c₁ (o.draftId 1) i.topic i.tone i.word_count i.include_code_examples) "title" (.vStr (runS6 o i).topic)),
             ("content", dgetD (optimize_seo resp₂ (dgetD (generate_draft c₁ (o.draftId 1) i.topic i.tone i.word_count i.include_code_examples) "content" (.vStr "")))
                "optimized_content" (dgetD (generate_draft c₁ (o.draftId 1) i.topic i.tone i.word_count i.include_code_examples) "content" (.vStr ""))),
             ("word_count", dgetD (generate_draft c₁ (o.draftId 1) i.topic i.tone i.word_count i.include_code_examples) "word_count" (.vNat 0))], ?_, ?_⟩
          · show (mergeState (runS6 o i) (optimize_node (.ok resp₂) (runS6 o i))).final_content = _
            rw [mergeState_final_content,
                optimize_node_final_content_ok resp₂ (runS6 o i) _ hdr]
            rfl
          · rw [show dget
                [("id", dgetD (generate_draft c₁ (o.draftId 1) i.topic i.tone
                    i.word_count i.include_code_examples) "id" (.vStr "")),
                 ("title", dgetD (generate_draft c₁ (o.draftId 1) i.topic i.tone
                    i.word_count i.include_code_examples) "title" (.vStr (runS6 o i).topic)),
                 ("content", dgetD (optimize_seo resp₂
                    (dgetD (generate_draft c₁ (o.draftId 1) i.topic i.tone
                      i.word_count i.include_code_examples) "content" (.vStr "")))
                    "optimized_content"
                    (dgetD (generate_draft c₁ (o.draftId 1) i.topic i.tone
                      i.word_count i.include_code_examples) "content" (.vStr ""))),
                 ("word_count", dgetD (generate_draft c₁ (o.draftId 1) i.topic i.tone
                    i.word_count i.include_code_examples) "word_count" (.vNat 0))]
                "word_count"
              = some (dgetD (generate_draft c₁ (o.draftId 1) i.topic i.tone
                  i.word_count i.include_code_examples) "word_count" (.vNat 0)) from rfl]
            rw [dgetD_word_count_generate_draft]
  · -- no revision, straight to optimize
    have hf4 := error_falsy_of_should_revise_optimize _ h
    obtain ⟨⟨r, hr⟩, ⟨q, hq⟩, ⟨c₀, hc₀⟩⟩ := runS4_oracle_ok_of_falsy o i hf4
    have hdr : (runS4 o i).draft = some (generate_draft c₀ (o.draftId 0) i.topic i.tone
        i.word_count i.include_code_examples) := by
      rw [runS4_draft_eq]; exact runS3_draft_ok o i c₀ hc₀
    have houtl : (runS4 o i).outline
        = some (generate_outline q o.outlineId i.topic i.word_count) := by
      rw [runS4_outline_eq]; exact runS2_outline_ok o i q hq
    rw [et]
    constructor
    · intro resp hresp homit
      rw [hq] at hresp
      injection hresp with h'
      subst h'
      refine ⟨generate_outline q o.outlineId i.topic i.word_count, ?_, ?_⟩
      · show (mergeState (runS4 o i) (optimize_node o.seo (runS4 o i))).outline = _
        rw [mergeState_outline, optimize_node_outline]
        simp only [Option.getD_none]
        exact houtl
      · rw [hwc]
        exact generate_outline_estimated_words q _ _ 2000 homit
    · refine ⟨generate_draft c₀ (o.draftId 0) i.topic i.tone
        i.word_count i.include_code_examples, c₀, ?_, ?_, ?_⟩
      · show (mergeState (runS4 o i) (optimize_node o.seo (runS4 o i))).draft = _
        rw [mergeState_draft, optimize_node_draft]
        simp only [Option.getD_none]
        exact hdr
      · exact generate_draft_content_key c₀ (o.draftId 0) i.topic i.tone
          i.word_count i.include_code_examples
      · cases hseo : o.seo with
        | error e =>
          refine ⟨generate_draft c₀ (o.draftId 0) i.topic i.tone i.word_count i.include_code_examples, ?_, ?_⟩
          · show (mergeState (runS4 o i) (optimize_node (.error e) (runS4 o i))).final_content = _
            rw [mergeState_final_content, optimize_node_final_content_err]
            simp only [Option.getD_some]
            exact hdr
          · exact generate_draft_word_count_key c₀ (o.draftId 0) i.topic i.tone
              i.word_count i.include_code_examples
        | ok resp₂ =>
          refine ⟨[("id", dgetD (generate_draft c₀ (o.draftId 0) i.topic i.tone i.word_count i.include_code_examples) "id" (.vStr "")),
             ("title", dgetD (generate_draft c₀ (o.draftId 0) i.topic i.tone i.word_count i.include_code_examples) "title" (.vStr (runS4 o i).topic)),
             ("content", dgetD (optimize_seo resp₂ (dgetD (generate_draft c₀ (o.draftId 0) i.topic i.tone i.word_count i.include_code_examples) "content" (.vStr "")))
                "optimized_content" (dgetD (generate_draft c₀ (o.draftId 0) i.topic i.tone i.word_count i.include_code_examples) "content" (.vStr ""))),
             ("word_count", dgetD (generate_draft c₀ (o.draftId 0) i.topic i.tone i.word_count i.include_code_examples) "word_count" (.vNat 0))], ?_, ?_⟩
          · show (mergeState (runS4 o i) (optimize_node (.ok resp₂) (runS4 o i))).final_content = _
            rw [mergeState_final_content,
                optimize_node_final_content_ok resp₂ (runS4 o i) _ hdr]
            rfl
          · rw [show dget
                [("id", dgetD (generate_draft c₀ (o.draftId 0) i.topic i.tone
                    i.word_count i.include_code_examples) "id" (.vStr "")),
                 ("title", dgetD (generate_draft c₀ (o.draftId 0) i.topic i.tone
                    i.word_count i.include_code_examples) "title" (.vStr (runS4 o i).topic)),
                 ("content", dgetD (optimize_seo resp₂
                    (dgetD (generate_draft c₀ (o.draftId 0) i.topic i.tone
                      i.word_count i.include_code_examples) "content" (.vStr "")))
                    "optimized_content"
                    (dgetD (generate_draft c₀ (o.draftId 0) i.topic i.tone
                      i.word_count i.include_code_examples) "content" (.vStr ""))),
                 ("word_count", dgetD (generate_draft c₀ (o.draftId 0) i.topic i.tone
                    i.word_count i.include_code_examples) "word_count" (.vNat 0))]
                "word_count"
              = some (dgetD (generate_draft c₀ (o.draftId 0) i.topic i.tone
                  i.word_count i.include_code_examples) "word_count" (.vNat 0)) from rfl]
            rw [dgetD_word_count_generate_draft]

theorem C9_witness :
    sampleInput.word_count = 2000 ∧
    (terminalConfig oracleAllOk sampleInput).state.status = "completed" ∧
    ((∀ resp, oracleAllOk.outline = .ok resp → dget resp "estimated_words" = none →
        ∃ ol, (terminalConfig oracleAllOk sampleInput).state.outline = some ol ∧
          dget ol "estimated_words" = some (.vNat 2000)) ∧
     (∃ d c, (terminalConfig oracleAllOk sampleInput).state.draft = some d ∧
        dget d "content" = some (.vStr c) ∧
        ∃ fc, (terminalConfig oracleAllOk sampleInput).state.final_content = some fc ∧
          dget fc "word_count" = some (.vNat (pyWordCount c)))) :=
  ⟨rfl, rfl, C9_completed_run_scenario oracleAllOk sampleInput rfl rfl⟩

end TechBlogAI
